import Mathlib

/-!
Verification development for the LLM chess benchmark's turn-orchestration core.

Shallow embedding of:
  * `src/shared/types/CommonTypes.ts` (enums and `GameResult`)
  * `src/shared/errors/GameErrors.ts` (error classes, `ErrorResolution`)
  * `src/domain/timer/GameTimerManager.ts` (`GameTimerManager`)
  * `src/domain/player/LLMPlayer.ts` (retry counter)
  * `src/application/GameOrchestrator.ts` (game loop, error policy)

Conventions: TypeScript `Map` becomes an association list; wall-clock reads
(`new Date()`) become explicit `now : Int` parameters; the 100 ms countdown
interval of `GameTimerManager.startTimer` becomes an explicit `tick` event;
`throw` becomes `Except.error` carrying the thrown message / error value.
-/

/-- Mirrors enum `PlayerColor` in CommonTypes.ts. -/
inductive PlayerColor where
  | white
  | black
deriving DecidableEq, Repr

/-- Mirrors the string value of the TS enum (used in template literals). -/
def colorStr : PlayerColor → String
  | .white => "white"
  | .black => "black"

/-- Mirrors `currentPlayer === WHITE ? BLACK : WHITE` computations. -/
def oppositeColor : PlayerColor → PlayerColor
  | .white => .black
  | .black => .white

/-- Mirrors enum `GameStatus` in CommonTypes.ts. -/
inductive GameStatus where
  | notStarted
  | inProgress
  | check
  | checkmate
  | stalemate
  | draw
  | paused
  | timeout
  | forfeit
  | drawOffered
deriving DecidableEq, Repr

/-- Mirrors enum `DrawReason` in CommonTypes.ts. -/
inductive DrawReason where
  | stalemate
  | threefoldRepetition
  | fiftyMoveRule
  | insufficientMaterial
  | agreement
deriving DecidableEq, Repr

/-- Mirrors enum `TimerType` in CommonTypes.ts. -/
inductive TimerType where
  | fischer
  | bronstein
  | simple
deriving DecidableEq, Repr

/-- Mirrors enum `ErrorResolution` in GameErrors.ts. -/
inductive ErrorResolution where
  | retry
  | forfeit
  | pauseGame
  | endGame
deriving DecidableEq, Repr

/-- Tests whether `l` starts with `p` (character lists). Used to embed
JavaScript `String.prototype.includes`. -/
def beginsWith : List Char → List Char → Bool
  | _, [] => true
  | [], _ :: _ => false
  | c :: cs, d :: ds => c == d && beginsWith cs ds

/-- Tests whether `p` occurs contiguously in `l`. -/
def hasSubList (p : List Char) : List Char → Bool
  | [] => beginsWith [] p
  | c :: t => beginsWith (c :: t) p || hasSubList p t

/-- Embeds `s.includes(pat)` from TypeScript. -/
def strContains (s pat : String) : Bool :=
  hasSubList pat.toList s.toList

/-- Lookup in an association list, embedding `Map.prototype.get`. -/
def assocFind {α : Type} (l : List (String × α)) (k : String) : Option α :=
  match l with
  | [] => none
  | (k', v) :: rest => if k' == k then some v else assocFind rest k

/-- Insert-or-update in an association list, embedding `Map.prototype.set`. -/
def assocSet {α : Type} (l : List (String × α)) (k : String) (v : α) :
    List (String × α) :=
  match l with
  | [] => [(k, v)]
  | (k', v') :: rest =>
      if k' == k then (k', v) :: rest else (k', v') :: assocSet rest k v

/-- Removal from an association list, embedding `Map.prototype.delete`. -/
def assocErase {α : Type} (l : List (String × α)) (k : String) :
    List (String × α) :=
  match l with
  | [] => []
  | (k', v') :: rest =>
      if k' == k then rest else (k', v') :: assocErase rest k

theorem assocFind_set_same {α : Type} (l : List (String × α)) (k : String) (v : α) :
    assocFind (assocSet l k v) k = some v := by
  induction l with
  | nil => simp [assocSet, assocFind]
  | cons h t ih =>
      by_cases hk : h.1 = k
      · simp [assocSet, assocFind, hk]
      · simp only [assocSet, assocFind]
        rw [if_neg (by simpa using hk)]
        simpa [assocFind, hk] using ih

theorem assocFind_set_other {α : Type} (l : List (String × α)) (k k' : String)
    (v : α) (hne : k ≠ k') :
    assocFind (assocSet l k v) k' = assocFind l k' := by
  induction l with
  | nil => simp [assocSet, assocFind, hne]
  | cons h t ih =>
      by_cases hk : h.1 = k
      · simp [assocSet, assocFind, hk, hne]
      · simp only [assocSet, assocFind]
        rw [if_neg (by simpa using hk)]
        by_cases hk' : h.1 = k'
        · simp [assocFind, hk']
        · simpa [assocFind, hk'] using ih

theorem assocFind_erase_other {α : Type} (l : List (String × α)) (k k' : String)
    (hne : k ≠ k') :
    assocFind (assocErase l k) k' = assocFind l k' := by
  induction l with
  | nil => simp [assocErase, assocFind]
  | cons h t ih =>
      by_cases hk : h.1 = k
      · simp [assocErase, assocFind, hk, hne]
      · simp only [assocErase, assocFind]
        rw [if_neg (by simpa using hk)]
        by_cases hk' : h.1 = k'
        · simp [assocFind, hk']
        · simpa [assocFind, hk'] using ih

/-- Mirrors interface `TimerConfiguration` in TimerTypes.ts. -/
structure TimerConfiguration where
  initialTimeMs : Int
  incrementMs : Int
  type : TimerType
deriving DecidableEq, Repr

/-- Mirrors interface `PlayerTimer` in TimerTypes.ts; `lastStartTime` is an
abstract instant instead of a `Date`. -/
structure PlayerTimer where
  playerId : String
  remainingTimeMs : Int
  isRunning : Bool
  lastStartTime : Option Int := none
deriving DecidableEq, Repr

/-- Mirrors class `GameTimerManager` (its `timers` Map and constructor config;
the `intervals` map is replaced by explicit `tick` events). -/
structure GameTimerManager where
  timers : List (String × PlayerTimer)
  timerConfig : TimerConfiguration
deriving DecidableEq, Repr

/-- Embeds `this.timers.get(playerId)`. -/
def findTimer (m : GameTimerManager) (id : String) : Option PlayerTimer :=
  assocFind m.timers id

/-- Embeds `this.timers.set(playerId, t)`. -/
def setTimer (m : GameTimerManager) (id : String) (t : PlayerTimer) :
    GameTimerManager :=
  { m with timers := assocSet m.timers id t }

/-- Embeds `GameTimerManager.initializeTimer`. -/
def initializeTimer (m : GameTimerManager) (id : String)
    (config : TimerConfiguration) : GameTimerManager :=
  setTimer m id
    { playerId := id, remainingTimeMs := config.initialTimeMs,
      isRunning := false, lastStartTime := none }

/-- Embeds `GameTimerManager.startTimer`; the `setInterval` registration is
modelled by separate `tick` events. -/
def startTimer (m : GameTimerManager) (id : String) (now : Int) :
    Except String GameTimerManager :=
  match findTimer m id with
  | none => .error ("Timer not found for player: " ++ id)
  | some t =>
      if t.isRunning then .ok m
      else .ok (setTimer m id { t with isRunning := true, lastStartTime := some now })

/-- Embeds one firing of the 100 ms countdown interval installed by
`startTimer` (decrement, floor at 0, auto-pause at 0). -/
def tick (m : GameTimerManager) (id : String) : GameTimerManager :=
  match findTimer m id with
  | none => m
  | some t =>
      if t.isRunning then
        let r := t.remainingTimeMs - 100
        if r ≤ 0 then setTimer m id { t with remainingTimeMs := 0, isRunning := false }
        else setTimer m id { t with remainingTimeMs := r }
      else m

/-- Applies `tick` a number of times (the interval firing repeatedly). -/
def tickN (m : GameTimerManager) (id : String) : Nat → GameTimerManager
  | 0 => m
  | n + 1 => tickN (tick m id) id n

/-- Embeds `GameTimerManager.pauseTimer` (returns elapsed wall-clock time). -/
def pauseTimer (m : GameTimerManager) (id : String) (now : Int) :
    Except String (Int × GameTimerManager) :=
  match findTimer m id with
  | none => .error ("Timer not found for player: " ++ id)
  | some t =>
      match t.isRunning, t.lastStartTime with
      | true, some s =>
          .ok (now - s,
            setTimer m id
              { t with isRunning := false,
                       remainingTimeMs := max 0 t.remainingTimeMs })
      | _, _ => .ok (0, m)

/-- Embeds `GameTimerManager.getRemainingTime`. -/
def getRemainingTime (m : GameTimerManager) (id : String) (now : Int) :
    Except String Int :=
  match findTimer m id with
  | none => .error ("Timer not found for player: " ++ id)
  | some t =>
      match t.isRunning, t.lastStartTime with
      | true, some s => .ok (max 0 (t.remainingTimeMs - (now - s)))
      | _, _ => .ok t.remainingTimeMs

/-- Embeds `GameTimerManager.addIncrement`. -/
def addIncrement (m : GameTimerManager) (id : String) (incrementMs : Int) :
    Except String GameTimerManager :=
  match findTimer m id with
  | none => .error ("Timer not found for player: " ++ id)
  | some t =>
      match m.timerConfig.type with
      | .fischer =>
          .ok (setTimer m id { t with remainingTimeMs := t.remainingTimeMs + incrementMs })
      | .bronstein =>
          let capped := min (t.remainingTimeMs + incrementMs) m.timerConfig.initialTimeMs
          .ok (setTimer m id { t with remainingTimeMs := capped })
      | .simple => .ok m

/-- Embeds `GameTimerManager.isTimeExpired`. -/
def isTimeExpired (m : GameTimerManager) (id : String) (now : Int) :
    Except String Bool :=
  match getRemainingTime m id now with
  | .error e => .error e
  | .ok r => .ok (decide (r ≤ 0))

/-- Embeds `GameTimerManager.resetTimer`. -/
def resetTimer (m : GameTimerManager) (id : String) (timeMs : Int) (now : Int) :
    GameTimerManager :=
  match findTimer m id with
  | none =>
      setTimer m id
        { playerId := id, remainingTimeMs := timeMs,
          isRunning := false, lastStartTime := none }
  | some _ =>
      match pauseTimer m id now with
      | .error _ => m
      | .ok (_, m2) =>
          match findTimer m2 id with
          | none => m2
          | some t2 => setTimer m2 id { t2 with remainingTimeMs := timeMs, isRunning := false }

/-- Mirrors interface `MoveResponse` in PlayerTypes.ts; `fromSq`/`toSq` stand
for the TS fields `from`/`to` (`from` is reserved in Lean). -/
structure MoveResponse where
  fromSq : String
  toSq : String
  promotion : Option String := none
  offerDraw : Bool := false
deriving DecidableEq, Repr

/-- Mirrors the error classes of GameErrors.ts: `TimeoutError`,
`InvalidMoveError`, and any other thrown `Error` (carrying its message). -/
inductive GameError where
  | timeoutErr (playerId : String) (playerColor : PlayerColor)
  | invalidMoveErr (message : String) (move : Option MoveResponse)
  | otherErr (message : String)
deriving DecidableEq, Repr

/-- Embeds the `message` property of each thrown error object. -/
def GameError.message : GameError → String
  | .timeoutErr playerId playerColor =>
      "Player " ++ playerId ++ " (" ++ colorStr playerColor ++ ") exceeded time limit"
  | .invalidMoveErr msg _ => msg
  | .otherErr msg => msg

/-- Mirrors interface `GameResult` in CommonTypes.ts; the `result` field keeps
the TS string-union values. -/
structure GameResult where
  winner : Option PlayerColor := none
  result : String
  reason : String
  drawReason : Option DrawReason := none
  finalPosition : Option String := none
  moveCount : Nat
deriving DecidableEq, Repr

/-- Mirrors the retry-counter slice of class `LLMPlayerImpl`
(id, color, and the private `retryCount`). -/
structure Player where
  id : String
  color : PlayerColor
  retryCount : Nat
deriving DecidableEq, Repr

/-- Mirrors the session state owned by class `GameOrchestrator`:
`gameStatus`, `isPaused`, `moveCount`, `invalidMoveAttempts`,
`lastInvalidMoveReason`, plus the collaborators it mutates (the timer
manager, the two players of `PlayerManager` and its turn colour) and, as
`board`, the list of moves applied through `gameManager.makeMove`. -/
structure OrchState where
  gameStatus : GameStatus
  isPaused : Bool
  moveCount : Nat
  invalidMoveAttempts : List (String × List (String × Nat))
  lastInvalidMoveReason : List (String × String)
  timers : GameTimerManager
  currentColor : PlayerColor
  white : Player
  black : Player
  board : List MoveResponse
deriving DecidableEq, Repr

/-- Embeds `this.playerManager.getCurrentPlayer()`. -/
def currentPlayerOf (st : OrchState) : Player :=
  match st.currentColor with
  | .white => st.white
  | .black => st.black

/-- Stores a (mutated) player object back by its colour. -/
def setPlayer (st : OrchState) (p : Player) : OrchState :=
  match p.color with
  | .white => { st with white := p }
  | .black => { st with black := p }

/-- Embeds the field `maxRetries = 3` of `GameOrchestrator`. -/
def maxRetries : Nat := 3

/-- Result record of `GameOrchestrator.handleError`: the returned resolution
together with the orchestrator state and player object it mutated. -/
structure HandleErrorResult where
  resolution : ErrorResolution
  state : OrchState
  player : Player
deriving Repr

/-- Embeds `GameOrchestrator.handleError` (GameOrchestrator.ts lines 333-403):
`instanceof TimeoutError` first, then `instanceof InvalidMoveError` with the
per-move ledger, then the message-based parse/JSON branch, then the generic
fallback, the latter two sharing the player's retry counter. -/
def handleError (st : OrchState) (p : Player) (e : GameError) : HandleErrorResult :=
  match e with
  | .timeoutErr _ _ =>
      { resolution := .endGame,
        state := { st with gameStatus := GameStatus.timeout }, player := p }
  | .invalidMoveErr msg mv =>
      let moveStr :=
        match mv with
        | some m => m.fromSq ++ m.toSq ++ m.promotion.getD ""
        | none => "unknown"
      let playerMoveAttempts := (assocFind st.invalidMoveAttempts p.id).getD []
      let currentCount := (assocFind playerMoveAttempts moveStr).getD 0
      let newCount := currentCount + 1
      let attempts' := assocSet playerMoveAttempts moveStr newCount
      let feedback :=
        "⚠️ Your move " ++ moveStr ++ " was invalid. " ++ msg ++
        ". Attempt " ++ toString newCount ++
        "/3 for this move. Please choose a different legal move."
      let st' :=
        { st with
            invalidMoveAttempts := assocSet st.invalidMoveAttempts p.id attempts',
            lastInvalidMoveReason := assocSet st.lastInvalidMoveReason p.id feedback }
      if newCount ≥ maxRetries then
        { resolution := .forfeit, state := st', player := p }
      else
        { resolution := .retry, state := st', player := p }
  | .otherErr msg =>
      if strContains msg "parse" || strContains msg "JSON" then
        let p' := { p with retryCount := p.retryCount + 1 }
        if p'.retryCount < maxRetries then
          { resolution := .retry, state := st, player := p' }
        else
          { resolution := .forfeit, state := st, player := p' }
      else
        let p' := { p with retryCount := p.retryCount + 1 }
        if p'.retryCount < maxRetries then
          { resolution := .retry, state := st, player := p' }
        else
          { resolution := .forfeit, state := st, player := p' }

/-- Embeds `GameOrchestrator.createResult`; `gsCurrentPlayer`, `gsStatus` and
`gsFen` are the fields the function reads from
`gameManager.getCurrentGameState()`. -/
def createResult (type : String) (gsCurrentPlayer : PlayerColor)
    (gsStatus : GameStatus) (gsFen : String) (drawReason : Option DrawReason)
    (moveCount : Nat) : GameResult :=
  if type = "win" then
    { winner := some (if gsCurrentPlayer = PlayerColor.white then PlayerColor.black else PlayerColor.white),
      result := type, reason := "Checkmate", drawReason := drawReason,
      finalPosition := some gsFen, moveCount := moveCount }
  else
    match drawReason with
    | some r =>
        let reason :=
          match r with
          | .stalemate => "Stalemate - No legal moves available"
          | .threefoldRepetition => "Threefold Repetition - Same position occurred 3 times"
          | .fiftyMoveRule => "Fifty-Move Rule - 50 moves without pawn move or capture"
          | .insufficientMaterial => "Insufficient Material - Neither side can checkmate"
          | .agreement => "Draw by Agreement - Both players agreed to draw"
        { winner := none, result := type, reason := reason, drawReason := some r,
          finalPosition := some gsFen, moveCount := moveCount }
    | none =>
        if gsStatus = GameStatus.stalemate then
          { winner := none, result := type, reason := "Stalemate",
            drawReason := some DrawReason.stalemate,
            finalPosition := some gsFen, moveCount := moveCount }
        else
          { winner := none, result := type, reason := "Draw", drawReason := none,
            finalPosition := some gsFen, moveCount := moveCount }

/-- Embeds `GameOrchestrator.createErrorResult` (lines 454-470). -/
def createErrorResult (moveCount : Nat) (e : GameError) : GameResult :=
  match e with
  | .timeoutErr _ playerColor =>
      { winner := some (if playerColor = PlayerColor.white then PlayerColor.black else PlayerColor.white),
        result := "timeout",
        reason := colorStr playerColor ++ " ran out of time",
        drawReason := none, finalPosition := none, moveCount := moveCount }
  | _ =>
      { winner := none, result := "draw",
        reason := "Game ended due to error: " ++ e.message,
        drawReason := none, finalPosition := none, moveCount := moveCount }

/-- Embeds `GameOrchestrator.createForfeitResult`. -/
def createForfeitResult (forfeitingColor : PlayerColor) (reason : String)
    (moveCount : Nat) : GameResult :=
  { winner := some (if forfeitingColor = PlayerColor.white then PlayerColor.black else PlayerColor.white),
    result := "forfeit",
    reason := colorStr forfeitingColor ++ " forfeited: " ++ reason,
    drawReason := none, finalPosition := none, moveCount := moveCount }

/-- Summary of the position that `GameOrchestrator.detectDrawReason` queries
from chess.js: the three predicate results and the FEN halfmove clock. -/
structure PositionFlags where
  isStalemateFlag : Bool
  isInsufficientMaterialFlag : Bool
  isThreefoldRepetitionFlag : Bool
  halfmoveClock : Nat
deriving DecidableEq, Repr

/-- Embeds `GameOrchestrator.detectDrawReason` (lines 533-556): stalemate,
then insufficient material, then threefold repetition, then the fifty-move
rule (`halfmoveClock >= 100`), in that order. -/
def detectDrawReason (f : PositionFlags) : Option DrawReason :=
  if f.isStalemateFlag then some DrawReason.stalemate
  else if f.isInsufficientMaterialFlag then some DrawReason.insufficientMaterial
  else if f.isThreefoldRepetitionFlag then some DrawReason.threefoldRepetition
  else if f.halfmoveClock ≥ 100 then some DrawReason.fiftyMoveRule
  else none

/-- Embeds the delay selection of the retry loop in
`GameOrchestrator.processTurn` (lines 256-274): `Rate limit` waits 15000 ms,
`LLMApiError` / `Failed to parse move` wait 3000 ms, `No JSON found` waits
2000 ms, any other message is rethrown without waiting. -/
def retryDelayFor (msg : String) : Option Nat :=
  if strContains msg "Rate limit" then some 15000
  else if strContains msg "LLMApiError" || strContains msg "Failed to parse move" then some 3000
  else if strContains msg "No JSON found" then some 2000
  else none

/-- Observation record for the move-request retry loop: its result, the
sleep durations it performed, and how many `requestMove` calls it made. -/
structure RetryOutcome where
  result : Except String MoveResponse
  waits : List Nat
  calls : Nat
deriving Repr

/-- Embeds the `while (attemptCount < maxAttempts)` retry loop of
`GameOrchestrator.processTurn` (lines 244-285). `outcomes n` is the result of
the `(n+1)`-th `player.requestMove` call; the fuel argument equals
`maxAttempts - attemptCount`, and exhausting it corresponds to the
`if (!move) throw` after the loop. -/
def retryGo (outcomes : Nat → Except String MoveResponse)
    (attemptCount : Nat) : Nat → RetryOutcome
  | 0 => { result := .error "Failed to get move after retries", waits := [], calls := 0 }
  | fuel + 1 =>
      match outcomes attemptCount with
      | .ok mv => { result := .ok mv, waits := [], calls := 1 }
      | .error msg =>
          let ac := attemptCount + 1
          match retryDelayFor msg with
          | some d =>
              if ac < 3 then
                let r := retryGo outcomes ac fuel
                { result := r.result, waits := d :: r.waits, calls := r.calls + 1 }
              else { result := .error msg, waits := [], calls := 1 }
          | none => { result := .error msg, waits := [], calls := 1 }

/-- Runs the retry loop as `processTurn` does: `attemptCount = 0`,
`maxAttempts = 3`. -/
def moveRequestRetry (outcomes : Nat → Except String MoveResponse) : RetryOutcome :=
  retryGo outcomes 0 3

/-- Per-turn external inputs of `GameOrchestrator.processTurn`: the
`requestMove` results, how often the countdown interval fires while the
player thinks, the wall-clock instants of `startTimer`/`pauseTimer`, and the
outcome of `gameManager.makeMove`. -/
structure TurnInput where
  requestOutcomes : Nat → Except String MoveResponse
  thinkTicks : Nat
  startNow : Int
  pauseNow : Int
  makeMoveOk : Bool
  makeMoveErr : String

/-- Embeds the `catch` block of `GameOrchestrator.processTurn` (lines
312-315): pause the player's timer, then rethrow; a failure of that pause
call itself replaces the original error. -/
def catchPause (st : OrchState) (id : String) (now : Int) (e : GameError) :
    GameError × OrchState :=
  match pauseTimer st.timers id now with
  | .error m => (.otherErr m, st)
  | .ok (_, t) => (e, { st with timers := t })

/-- Embeds the part of `GameOrchestrator.processTurn` inside its `try` block
after `startTimer` (the retry loop, `pauseTimer`, and `makeMove`), applied to
the state `st1` that already reflects the timer start, the interval ticks,
and the consumed invalid-move feedback. -/
def processTurnAfterStart (st1 : OrchState) (id : String) (inp : TurnInput) :
    Except (GameError × OrchState) (OrchState × MoveResponse × Int) :=
  match (moveRequestRetry inp.requestOutcomes).result with
  | .error msg => .error (catchPause st1 id inp.pauseNow (.otherErr msg))
  | .ok mv =>
      match pauseTimer st1.timers id inp.pauseNow with
      | .error m => .error (catchPause st1 id inp.pauseNow (.otherErr m))
      | .ok (timeUsed, t3) =>
          if inp.makeMoveOk then
            .ok ({ st1 with timers := t3, board := st1.board ++ [mv] }, mv, timeUsed)
          else
            .error (catchPause { st1 with timers := t3 } id inp.pauseNow
              (.invalidMoveErr inp.makeMoveErr (some mv)))

/-- Embeds `GameOrchestrator.processTurn` (lines 226-316): start the timer,
consume the stored invalid-move feedback, run the request retry loop, pause
the timer, and apply the move via `gameManager.makeMove`; on success returns
the elapsed time and the move, on failure the thrown error, in both cases
with the state as mutated so far. -/
def processTurn (st : OrchState) (id : String) (inp : TurnInput) :
    Except (GameError × OrchState) (OrchState × MoveResponse × Int) :=
  match startTimer st.timers id inp.startNow with
  | .error m => .error (.otherErr m, st)
  | .ok t1 =>
      processTurnAfterStart
        { st with timers := tickN t1 id inp.thinkTicks,
                  lastInvalidMoveReason := assocErase st.lastInvalidMoveReason id }
        id inp

/-- Mirrors interface `DrawResponse` in PlayerTypes.ts. -/
structure DrawResponse where
  acceptDraw : Bool
  reason : Option String := none
deriving DecidableEq, Repr

/-- External inputs of one `processGameLoop` iteration beyond the turn
itself: the opponent's draw-offer response (`none` models an opponent
without `respondToDrawOffer`), the result of the forfeit-reason
solicitation (`none` models a player without `askLLM`), and the game state
reported by `gameManager.getCurrentGameState()` after the move. -/
structure LoopInput where
  turn : TurnInput
  drawResponse : Option DrawResponse
  askResponse : Option (Except String String)
  postGameStatus : GameStatus
  postCurrentPlayer : PlayerColor
  postFen : String
  drawFlags : PositionFlags

/-- Outcome of one iteration of the `while` loop in
`GameOrchestrator.processGameLoop`: continue looping, or return a result. -/
inductive LoopOutcome where
  | continueGame (st : OrchState)
  | finished (r : GameResult) (st : OrchState)
deriving Repr

/-- Embeds `GameOrchestrator.handleDrawOffer` (lines 558-584); the opponent's
availability and answer come in as `resp`. -/
def handleDrawOffer (resp : Option DrawResponse) (inp : LoopInput)
    (moveCount : Nat) : Option GameResult :=
  match resp with
  | none => none
  | some r =>
      if r.acceptDraw then
        some (createResult "draw" inp.postCurrentPlayer inp.postGameStatus inp.postFen
          (some DrawReason.agreement) moveCount)
      else none

/-- Embeds `GameOrchestrator.askForfeitReason` (lines 482-527); `resp` is the
availability and result of `player.askLLM`. -/
def askForfeitReason (resp : Option (Except String String))
    (invalidMoves : List String) : String :=
  match resp with
  | some (.ok r) =>
      if invalidMoves.length > 0 then
        "Attempted invalid moves: " ++ String.intercalate ", " invalidMoves ++ ". " ++ r
      else if r = "" then "Unable to continue playing due to repeated invalid moves"
      else r
  | some (.error _) =>
      if invalidMoves.length > 0 then
        "Attempted invalid moves: " ++ String.intercalate ", " invalidMoves ++ ". Unable to continue playing."
      else "Unable to continue playing due to repeated invalid moves"
  | none =>
      if invalidMoves.length > 0 then
        "Attempted invalid moves: " ++ String.intercalate ", " invalidMoves ++ ". Unable to continue playing."
      else "Unable to continue playing due to repeated invalid moves"

/-- Embeds the `try { pauseTimer } catch { /* ok */ }` pattern of
`GameOrchestrator.pauseGame`. -/
def pauseIgn (m : GameTimerManager) (id : String) (now : Int) : GameTimerManager :=
  match pauseTimer m id now with
  | .ok (_, m') => m'
  | .error _ => m

/-- Embeds `GameOrchestrator.pauseGame` (lines 184-201): only from
`IN_PROGRESS`; pauses both players' timers, ignoring pause failures. -/
def pauseGameOp (st : OrchState) (now : Int) : OrchState :=
  if st.gameStatus = GameStatus.inProgress then
    { st with isPaused := true, gameStatus := GameStatus.paused,
              timers := pauseIgn (pauseIgn st.timers st.white.id now) st.black.id now }
  else st

/-- Embeds `GameOrchestrator.resumeGame` (lines 203-216): only from
`PAUSED`; restarts only the current player's timer (whose absence would
propagate as a thrown error). -/
def resumeGameOp (st : OrchState) (now : Int) : Except String OrchState :=
  if st.gameStatus = GameStatus.paused then
    match startTimer st.timers (currentPlayerOf st).id now with
    | .error m => .error m
    | .ok t =>
        .ok { st with isPaused := false, gameStatus := GameStatus.inProgress, timers := t }
  else .ok st

/-- Embeds the `try` block of one `processGameLoop` iteration (lines 88-123):
the turn, the post-move timeout check, the hardcoded 5000 ms increment, the
draw-offer handling, turn advancement, and the terminal-state checks.
Thrown errors (including the `TimeoutError` of line 92) surface as
`Except.error` for the `catch` part. -/
def gameLoopTry (st : OrchState) (cp : Player) (inp : LoopInput) :
    Except (GameError × OrchState) LoopOutcome :=
  match processTurn st cp.id inp.turn with
  | .error es => .error es
  | .ok (st1, mv, _) =>
      match isTimeExpired st1.timers cp.id inp.turn.pauseNow with
      | .error m => .error (.otherErr m, st1)
      | .ok true => .error (.timeoutErr cp.id cp.color, st1)
      | .ok false =>
          match addIncrement st1.timers cp.id 5000 with
          | .error m => .error (.otherErr m, st1)
          | .ok t2 =>
              let st2 := { st1 with timers := t2 }
              match (if mv.offerDraw then handleDrawOffer inp.drawResponse inp st2.moveCount else none) with
              | some res => .ok (.finished res st2)
              | none =>
                  let st3 :=
                    setPlayer
                      { st2 with currentColor := oppositeColor st2.currentColor,
                                 moveCount := st2.moveCount + 1 }
                      { cp with retryCount := 0 }
                  if inp.postGameStatus = GameStatus.checkmate then
                    .ok (.finished (createResult "win" inp.postCurrentPlayer inp.postGameStatus
                      inp.postFen none st3.moveCount) st3)
                  else if inp.postGameStatus = GameStatus.stalemate then
                    .ok (.finished (createResult "draw" inp.postCurrentPlayer inp.postGameStatus
                      inp.postFen (some DrawReason.stalemate) st3.moveCount) st3)
                  else if inp.postGameStatus = GameStatus.draw then
                    .ok (.finished (createResult "draw" inp.postCurrentPlayer inp.postGameStatus
                      inp.postFen (detectDrawReason inp.drawFlags) st3.moveCount) st3)
                  else .ok (.continueGame st3)

/-- Embeds the `catch` block of the loop (lines 125-174): classify via
`handleError`, then branch on the resolution (end, forfeit with the forfeit
sub-protocol, pause, or retry). -/
def gameLoopCatch (st : OrchState) (cp : Player) (e : GameError) (inp : LoopInput) :
    LoopOutcome :=
  let h := handleError st cp e
  let st1 := setPlayer h.state h.player
  match h.resolution with
  | .endGame => .finished (createErrorResult st1.moveCount e) st1
  | .forfeit =>
      let attempts := (assocFind st1.invalidMoveAttempts cp.id).getD []
      let invalidMoves := attempts.map (fun p => p.1 ++ " (" ++ toString p.2 ++ "x)")
      let reason := askForfeitReason inp.askResponse invalidMoves
      .finished (createForfeitResult cp.color reason st1.moveCount) st1
  | .pauseGame => .continueGame (pauseGameOp st1 inp.turn.pauseNow)
  | .retry => .continueGame st1

/-- Embeds one iteration of the `while` loop of
`GameOrchestrator.processGameLoop` (lines 78-175). -/
def gameLoopIter (st : OrchState) (inp : LoopInput) : LoopOutcome :=
  if st.isPaused then .continueGame st
  else
    let cp := currentPlayerOf st
    match gameLoopTry st cp inp with
    | .ok out => out
    | .error (e, st') => gameLoopCatch st' cp e inp

/-- Mirrors the per-player slice of `GameConfiguration` that `startGame`
reads (ConfigTypes.ts). -/
structure PlayerConfig where
  id : String
  initialTimeMs : Int
  incrementMs : Int
deriving Repr

/-- Mirrors the slice of `GameConfiguration` that `startGame` reads. -/
structure GameConfiguration where
  whitePlayer : PlayerConfig
  blackPlayer : PlayerConfig
  timerType : TimerType
  saveGame : Bool
deriving Repr

/-- Failure points inside `GameOrchestrator.startGame`:
`gameManager.initializeGame()` and `stateManager.saveConfiguration()` are the
two awaited collaborator calls in its `try` block that can throw. -/
inductive SetupFail where
  | initGame (msg : String)
  | saveCfg (msg : String)
deriving DecidableEq, Repr

/-- Embeds `GameOrchestrator.startGame` (lines 39-74): initialize the game,
initialize both timers, set `IN_PROGRESS`, optionally save the
configuration; the `catch` resets `gameStatus` to `NOT_STARTED` and
rethrows. Returns the propagated error (if any) with the final state. -/
def startGame (st : OrchState) (config : GameConfiguration)
    (fail : Option SetupFail) : Except String Unit × OrchState :=
  match fail with
  | some (.initGame m) =>
      (.error m, { st with gameStatus := GameStatus.notStarted })
  | _ =>
      let t1 := initializeTimer st.timers config.whitePlayer.id
        { initialTimeMs := config.whitePlayer.initialTimeMs,
          incrementMs := config.whitePlayer.incrementMs, type := config.timerType }
      let t2 := initializeTimer t1 config.blackPlayer.id
        { initialTimeMs := config.blackPlayer.initialTimeMs,
          incrementMs := config.blackPlayer.incrementMs, type := config.timerType }
      let st1 := { st with timers := t2, gameStatus := GameStatus.inProgress }
      match fail with
      | some (.saveCfg m) =>
          if config.saveGame then
            (.error m, { st1 with gameStatus := GameStatus.notStarted })
          else (.ok (), st1)
      | _ => (.ok (), st1)

/-- Whether the timer registered under `id` is currently running. -/
def isRunB (m : GameTimerManager) (id : String) : Bool :=
  match findTimer m id with
  | some t => t.isRunning
  | none => false

/-- Well-formedness maintained by `GameTimerManager`: a running timer always
has a `lastStartTime` (set by `startTimer`). -/
def wfTimers (m : GameTimerManager) : Prop :=
  ∀ id t, findTimer m id = some t → t.isRunning = true → t.lastStartTime ≠ none

theorem findTimer_set_same (m : GameTimerManager) (id : String) (t : PlayerTimer) :
    findTimer (setTimer m id t) id = some t := by
  simp [findTimer, setTimer, assocFind_set_same]

theorem findTimer_set_other (m : GameTimerManager) (id id' : String)
    (t : PlayerTimer) (hne : id ≠ id') :
    findTimer (setTimer m id t) id' = findTimer m id' := by
  simp [findTimer, setTimer, assocFind_set_other _ _ _ _ hne]

theorem startTimer_ok_isRun_self {m : GameTimerManager} {id : String} {now : Int}
    {m' : GameTimerManager} (h : startTimer m id now = .ok m') :
    isRunB m' id = true := by
  unfold startTimer at h
  cases hf : findTimer m id with
  | none => rw [hf] at h; exact absurd h (by simp)
  | some t =>
      rw [hf] at h
      by_cases hr : t.isRunning
      · simp [hr] at h
        rw [← h]
        simp [isRunB, hf, hr]
      · simp [hr] at h
        rw [← h]
        simp [isRunB, findTimer_set_same]

theorem startTimer_ok_find_other {m : GameTimerManager} {id : String} {now : Int}
    {m' : GameTimerManager} (h : startTimer m id now = .ok m')
    (id' : String) (hne : id ≠ id') :
    findTimer m' id' = findTimer m id' := by
  unfold startTimer at h
  cases hf : findTimer m id with
  | none => rw [hf] at h; exact absurd h (by simp)
  | some t =>
      rw [hf] at h
      by_cases hr : t.isRunning
      · simp [hr] at h; rw [← h]
      · simp [hr] at h; rw [← h]; exact findTimer_set_other _ _ _ _ hne

theorem startTimer_ok_wf {m : GameTimerManager} {id : String} {now : Int}
    {m' : GameTimerManager} (hw : wfTimers m) (h : startTimer m id now = .ok m') :
    wfTimers m' := by
  unfold startTimer at h
  cases hf : findTimer m id with
  | none => rw [hf] at h; exact absurd h (by simp)
  | some t =>
      rw [hf] at h
      by_cases hr : t.isRunning
      · simp [hr] at h; rw [← h]; exact hw
      · simp [hr] at h
        intro i u hfu hru
        rw [← h] at hfu
        by_cases hi : id = i
        · subst hi
          rw [findTimer_set_same] at hfu
          cases hfu; simp
        · rw [findTimer_set_other _ _ _ _ hi] at hfu
          exact hw i u hfu hru

theorem pauseTimer_ok_notRun_self {m : GameTimerManager} {id : String} {now : Int}
    {r : Int × GameTimerManager} (hw : wfTimers m)
    (h : pauseTimer m id now = .ok r) :
    isRunB r.2 id = false := by
  unfold pauseTimer at h
  cases hf : findTimer m id with
  | none => rw [hf] at h; exact absurd h (by simp)
  | some t =>
      rw [hf] at h
      cases hr : t.isRunning with
      | false => simp [hr] at h; rw [← h]; simp [isRunB, hf, hr]
      | true =>
          cases hs : t.lastStartTime with
          | none => exact absurd (hw id t hf hr) (by simp [hs])
          | some s =>
              simp [hr, hs] at h
              rw [← h]
              simp [isRunB, findTimer_set_same]

theorem pauseTimer_ok_find_other {m : GameTimerManager} {id : String} {now : Int}
    {r : Int × GameTimerManager} (h : pauseTimer m id now = .ok r)
    (id' : String) (hne : id ≠ id') :
    findTimer r.2 id' = findTimer m id' := by
  unfold pauseTimer at h
  cases hf : findTimer m id with
  | none => rw [hf] at h; exact absurd h (by simp)
  | some t =>
      rw [hf] at h
      cases hr : t.isRunning with
      | false => simp [hr] at h; rw [← h]
      | true =>
          cases hs : t.lastStartTime with
          | none => simp [hr, hs] at h; rw [← h]
          | some s =>
              simp [hr, hs] at h
              rw [← h]
              exact findTimer_set_other _ _ _ _ hne

theorem pauseTimer_ok_wf {m : GameTimerManager} {id : String} {now : Int}
    {r : Int × GameTimerManager} (hw : wfTimers m)
    (h : pauseTimer m id now = .ok r) :
    wfTimers r.2 := by
  unfold pauseTimer at h
  cases hf : findTimer m id with
  | none => rw [hf] at h; exact absurd h (by simp)
  | some t =>
      rw [hf] at h
      cases hr : t.isRunning with
      | false => simp [hr] at h; rw [← h]; exact hw
      | true =>
          cases hs : t.lastStartTime with
          | none => simp [hr, hs] at h; rw [← h]; exact hw
          | some s =>
              simp [hr, hs] at h
              intro i u hfu hru
              rw [← h] at hfu
              by_cases hi : id = i
              · subst hi
                rw [findTimer_set_same] at hfu
                cases hfu
                simp at hru
              · rw [findTimer_set_other _ _ _ _ hi] at hfu
                exact hw i u hfu hru

theorem tick_isRun_mono {m : GameTimerManager} {id id' : String}
    (h : isRunB (tick m id) id' = true) : isRunB m id' = true := by
  unfold tick at h
  cases hf : findTimer m id with
  | none => rw [hf] at h; exact h
  | some t =>
      rw [hf] at h
      by_cases hr : t.isRunning
      · simp only [hr, if_true] at h
        by_cases hz : t.remainingTimeMs - 100 ≤ 0
        · simp only [hz, if_true] at h
          by_cases hi : id = id'
          · subst hi
            rw [isRunB, findTimer_set_same] at h
            simp at h
          · rw [isRunB, findTimer_set_other _ _ _ _ hi] at h
            exact h
        · simp only [hz, if_false] at h
          by_cases hi : id = id'
          · subst hi
            rw [isRunB, findTimer_set_same] at h
            simp at h
            simp [isRunB, hf, hr]
          · rw [isRunB, findTimer_set_other _ _ _ _ hi] at h
            exact h
      · simp only [hr, if_false] at h
        exact h

theorem tick_wf {m : GameTimerManager} {id : String} (hw : wfTimers m) :
    wfTimers (tick m id) := by
  unfold tick
  cases hf : findTimer m id with
  | none => exact hw
  | some t =>
      by_cases hr : t.isRunning
      · simp only [hr, if_true]
        by_cases hz : t.remainingTimeMs - 100 ≤ 0
        · simp only [hz, if_true]
          intro i u hfu hru
          by_cases hi : id = i
          · subst hi
            rw [findTimer_set_same] at hfu
            cases hfu
            simp at hru
          · rw [findTimer_set_other _ _ _ _ hi] at hfu
            exact hw i u hfu hru
        · simp only [hz, if_false]
          intro i u hfu hru
          by_cases hi : id = i
          · subst hi
            rw [findTimer_set_same] at hfu
            cases hfu
            exact hw id t hf hr
          · rw [findTimer_set_other _ _ _ _ hi] at hfu
            exact hw i u hfu hru
      · simp only [hr, if_false]
        exact hw

theorem addIncrement_ok_isRun {m : GameTimerManager} {id : String} {inc : Int}
    {m' : GameTimerManager} (h : addIncrement m id inc = .ok m') (id' : String) :
    isRunB m' id' = isRunB m id' := by
  unfold addIncrement at h
  cases hf : findTimer m id with
  | none => rw [hf] at h; exact absurd h (by simp)
  | some t =>
      rw [hf] at h
      cases hty : m.timerConfig.type with
      | fischer =>
          simp [hty] at h
          rw [← h]
          by_cases hi : id = id'
          · subst hi; simp [isRunB, findTimer_set_same, hf]
          · simp [isRunB, findTimer_set_other _ _ _ _ hi]
      | bronstein =>
          simp [hty] at h
          rw [← h]
          by_cases hi : id = id'
          · subst hi; simp [isRunB, findTimer_set_same, hf]
          · simp [isRunB, findTimer_set_other _ _ _ _ hi]
      | simple =>
          simp [hty] at h
          rw [← h]

theorem addIncrement_ok_wf {m : GameTimerManager} {id : String} {inc : Int}
    {m' : GameTimerManager} (hw : wfTimers m) (h : addIncrement m id inc = .ok m') :
    wfTimers m' := by
  unfold addIncrement at h
  cases hf : findTimer m id with
  | none => rw [hf] at h; exact absurd h (by simp)
  | some t =>
      rw [hf] at h
      cases hty : m.timerConfig.type with
      | fischer =>
          simp [hty] at h
          intro i u hfu hru
          rw [← h] at hfu
          by_cases hi : id = i
          · subst hi
            rw [findTimer_set_same] at hfu
            cases hfu
            exact hw id t hf (by simpa using hru)
          · rw [findTimer_set_other _ _ _ _ hi] at hfu
            exact hw i u hfu hru
      | bronstein =>
          simp [hty] at h
          intro i u hfu hru
          rw [← h] at hfu
          by_cases hi : id = i
          · subst hi
            rw [findTimer_set_same] at hfu
            cases hfu
            exact hw id t hf (by simpa using hru)
          · rw [findTimer_set_other _ _ _ _ hi] at hfu
            exact hw i u hfu hru
      | simple =>
          simp [hty] at h
          rw [← h]; exact hw

/-- Phase of the cooperative game loop relative to `processTurn`: between
iterations, or inside a turn (between its `startTimer` and `pauseTimer`). -/
inductive LoopPhase where
  | idle
  | inTurn
deriving DecidableEq, Repr

/-- Projection of the orchestrator state that the timer-exclusivity argument
needs: the timer manager, whose turn it is, the session status, the pause
flag, and the loop phase. -/
structure TimerSysState where
  timers : GameTimerManager
  current : PlayerColor
  status : GameStatus
  isPaused : Bool
  phase : LoopPhase
deriving Repr

/-- Player id for each colour (ids come from the game configuration). -/
def sysId (wid bid : String) : PlayerColor → String
  | .white => wid
  | .black => bid

/-- State right after `startGame`: both timers initialized and stopped,
status `IN_PROGRESS`, white to move, loop between iterations. -/
def initTimerSys (wid bid : String) (mcfg cfgW cfgB : TimerConfiguration) :
    TimerSysState :=
  { timers := initializeTimer (initializeTimer ⟨[], mcfg⟩ wid cfgW) bid cfgB,
    current := .white, status := GameStatus.inProgress,
    isPaused := false, phase := .idle }

/-- Embeds `GameOrchestrator.pauseGame` on the projected state. -/
def pauseSys (wid bid : String) (s : TimerSysState) (now : Int) : TimerSysState :=
  if s.status = GameStatus.inProgress then
    { s with isPaused := true, status := GameStatus.paused,
             timers := pauseIgn (pauseIgn s.timers wid now) bid now }
  else s

/-- Embeds `GameOrchestrator.resumeGame` on the projected state. -/
def resumeSys (wid bid : String) (s : TimerSysState) (now : Int) :
    Except String TimerSysState :=
  if s.status = GameStatus.paused then
    match startTimer s.timers (sysId wid bid s.current) now with
    | .error m => .error m
    | .ok t =>
        .ok { s with isPaused := false, status := GameStatus.inProgress, timers := t }
  else .ok s

/-- Reachable states of the orchestrator's timer-affecting operations from a
freshly started game: `turnBegin`/`turnEndOk`/`turnEndErr` are the timer
actions of `processTurn` and the successful loop iteration around it
(`startTimer` on entry at GameOrchestrator.ts:227; `pauseTimer` at :288/:313;
`addIncrement` and `switchTurn` at :95/:105 on success), `tickStep` is the
background countdown interval, and `pauseStep`/`resumeStep` are
`pauseGame`/`resumeGame` invoked between iterations. -/
inductive ReachTimer (wid bid : String) (mcfg cfgW cfgB : TimerConfiguration) :
    TimerSysState → Prop where
  | start : ReachTimer wid bid mcfg cfgW cfgB (initTimerSys wid bid mcfg cfgW cfgB)
  | turnBegin {s : TimerSysState} {now : Int} {m' : GameTimerManager} :
      ReachTimer wid bid mcfg cfgW cfgB s →
      s.phase = .idle → s.status = GameStatus.inProgress → s.isPaused = false →
      startTimer s.timers (sysId wid bid s.current) now = .ok m' →
      ReachTimer wid bid mcfg cfgW cfgB { s with timers := m', phase := .inTurn }
  | tickStep {s : TimerSysState} (c : PlayerColor) :
      ReachTimer wid bid mcfg cfgW cfgB s →
      ReachTimer wid bid mcfg cfgW cfgB
        { s with timers := tick s.timers (sysId wid bid c) }
  | turnEndOk {s : TimerSysState} {now : Int} {u : Int}
      {m' t2 : GameTimerManager} :
      ReachTimer wid bid mcfg cfgW cfgB s →
      s.phase = .inTurn →
      pauseTimer s.timers (sysId wid bid s.current) now = .ok (u, m') →
      addIncrement m' (sysId wid bid s.current) 5000 = .ok t2 →
      ReachTimer wid bid mcfg cfgW cfgB
        { s with timers := t2, current := oppositeColor s.current, phase := .idle }
  | turnEndErr {s : TimerSysState} {now : Int} {u : Int} {m' : GameTimerManager} :
      ReachTimer wid bid mcfg cfgW cfgB s →
      s.phase = .inTurn →
      pauseTimer s.timers (sysId wid bid s.current) now = .ok (u, m') →
      ReachTimer wid bid mcfg cfgW cfgB { s with timers := m', phase := .idle }
  | pauseStep {s : TimerSysState} {now : Int} :
      ReachTimer wid bid mcfg cfgW cfgB s →
      s.phase = .idle →
      ReachTimer wid bid mcfg cfgW cfgB (pauseSys wid bid s now)
  | resumeStep {s : TimerSysState} {now : Int} {s' : TimerSysState} :
      ReachTimer wid bid mcfg cfgW cfgB s →
      s.phase = .idle →
      resumeSys wid bid s now = .ok s' →
      ReachTimer wid bid mcfg cfgW cfgB s'

/-- Inductive invariant: timers are well-formed, and any running timer
belongs to the side to move. -/
def timerInv (wid bid : String) (s : TimerSysState) : Prop :=
  wfTimers s.timers ∧
  ∀ c : PlayerColor, isRunB s.timers (sysId wid bid c) = true → c = s.current

theorem pauseTimer_error_find {m : GameTimerManager} {id : String} {now : Int}
    {msg : String} (h : pauseTimer m id now = .error msg) :
    findTimer m id = none := by
  unfold pauseTimer at h
  cases hf : findTimer m id with
  | none => rfl
  | some t =>
      rw [hf] at h
      cases hr : t.isRunning with
      | false => simp [hr] at h
      | true =>
          cases hs : t.lastStartTime with
          | none => simp [hr, hs] at h
          | some s => simp [hr, hs] at h

theorem pauseIgn_notRun_self (m : GameTimerManager) (id : String) (now : Int)
    (hw : wfTimers m) : isRunB (pauseIgn m id now) id = false := by
  unfold pauseIgn
  cases hp : pauseTimer m id now with
  | error msg => simp [isRunB, pauseTimer_error_find hp]
  | ok r => exact pauseTimer_ok_notRun_self hw hp

theorem pauseIgn_find_other (m : GameTimerManager) (id id' : String) (now : Int)
    (hne : id ≠ id') : findTimer (pauseIgn m id now) id' = findTimer m id' := by
  unfold pauseIgn
  cases hp : pauseTimer m id now with
  | error msg => rfl
  | ok r => exact pauseTimer_ok_find_other hp id' hne

theorem pauseIgn_wf (m : GameTimerManager) (id : String) (now : Int)
    (hw : wfTimers m) : wfTimers (pauseIgn m id now) := by
  unfold pauseIgn
  cases hp : pauseTimer m id now with
  | error msg => exact hw
  | ok r => exact pauseTimer_ok_wf hw hp

theorem initializeTimer_wf (m : GameTimerManager) (id : String)
    (cfg : TimerConfiguration) (hw : wfTimers m) :
    wfTimers (initializeTimer m id cfg) := by
  unfold initializeTimer
  intro i u hfu hru
  by_cases hi : id = i
  · subst hi
    rw [findTimer_set_same] at hfu
    cases hfu
    simp at hru
  · rw [findTimer_set_other _ _ _ _ hi] at hfu
    exact hw i u hfu hru

theorem initializeTimer_notRun (m : GameTimerManager) (id id' : String)
    (cfg : TimerConfiguration) (h : isRunB m id' = false) :
    isRunB (initializeTimer m id cfg) id' = false := by
  unfold initializeTimer
  by_cases hi : id = id'
  · subst hi; simp [isRunB, findTimer_set_same]
  · rw [isRunB, findTimer_set_other _ _ _ _ hi]; exact h

theorem emptyMgr_wf (mcfg : TimerConfiguration) :
    wfTimers ⟨[], mcfg⟩ := by
  intro i u hfu _
  simp [findTimer, assocFind] at hfu

theorem sysId_inj {wid bid : String} (hne : wid ≠ bid) {c c' : PlayerColor}
    (h : sysId wid bid c = sysId wid bid c') : c = c' := by
  cases c <;> cases c' <;> simp_all [sysId]

theorem timerInv_reach {wid bid : String} {mcfg cfgW cfgB : TimerConfiguration}
    (hne : wid ≠ bid) {s : TimerSysState}
    (h : ReachTimer wid bid mcfg cfgW cfgB s) : timerInv wid bid s := by
  induction h with
  | start =>
      refine ⟨initializeTimer_wf _ _ _ (initializeTimer_wf _ _ _ (emptyMgr_wf mcfg)), ?_⟩
      intro c hc
      exfalso
      have h0 : isRunB (⟨[], mcfg⟩ : GameTimerManager) (sysId wid bid c) = false := by
        simp [isRunB, findTimer, assocFind]
      have h1 := initializeTimer_notRun ⟨[], mcfg⟩ wid (sysId wid bid c) cfgW h0
      have h2 := initializeTimer_notRun _ bid (sysId wid bid c) cfgB h1
      rw [initTimerSys] at hc
      simp only [h2] at hc
      exact Bool.false_ne_true hc
  | turnBegin hr hph hst hpa hstart ih =>
      obtain ⟨ihw, ihrun⟩ := ih
      refine ⟨startTimer_ok_wf ihw hstart, ?_⟩
      intro c hc
      show c = _
      rename_i s _ _
      by_cases hcc : c = s.current
      · exact hcc
      · exfalso
        have hid : sysId wid bid s.current ≠ sysId wid bid c :=
          fun he => hcc (sysId_inj hne he).symm
        rw [isRunB, startTimer_ok_find_other hstart _ hid] at hc
        exact hcc (ihrun c hc)
  | tickStep c0 hr ih =>
      obtain ⟨ihw, ihrun⟩ := ih
      exact ⟨tick_wf ihw, fun c hc => ihrun c (tick_isRun_mono hc)⟩
  | turnEndOk hr hph hp ha ih =>
      obtain ⟨ihw, ihrun⟩ := ih
      refine ⟨addIncrement_ok_wf (pauseTimer_ok_wf ihw hp) ha, ?_⟩
      intro c hc
      exfalso
      rename_i s _ _ _ _
      rw [isRunB] at hc
      have hrun2 := (addIncrement_ok_isRun ha (sysId wid bid c))
      rw [isRunB, isRunB] at hrun2
      rw [hrun2] at hc
      by_cases hcc : c = s.current
      · subst hcc
        have := pauseTimer_ok_notRun_self ihw hp
        rw [isRunB] at this
        simp only [this] at hc
        exact Bool.false_ne_true hc
      · have hid : sysId wid bid s.current ≠ sysId wid bid c :=
          fun he => hcc (sysId_inj hne he).symm
        rw [pauseTimer_ok_find_other hp _ hid] at hc
        exact hcc (ihrun c hc)
  | turnEndErr hr hph hp ih =>
      obtain ⟨ihw, ihrun⟩ := ih
      refine ⟨pauseTimer_ok_wf ihw hp, ?_⟩
      intro c hc
      rename_i s _ _ _
      rw [isRunB] at hc
      by_cases hcc : c = s.current
      · exact hcc
      · exfalso
        have hid : sysId wid bid s.current ≠ sysId wid bid c :=
          fun he => hcc (sysId_inj hne he).symm
        rw [pauseTimer_ok_find_other hp _ hid] at hc
        exact hcc (ihrun c hc)
  | pauseStep hr hph ih =>
      obtain ⟨ihw, ihrun⟩ := ih
      rename_i s now
      rw [pauseSys]
      by_cases hst : s.status = GameStatus.inProgress
      · simp only [hst, if_true]
        refine ⟨pauseIgn_wf _ _ _ (pauseIgn_wf _ _ _ ihw), ?_⟩
        intro c hc
        exfalso
        cases c with
        | white =>
            rw [sysId] at hc
            rw [isRunB, pauseIgn_find_other _ bid wid _ (Ne.symm hne)] at hc
            have := pauseIgn_notRun_self s.timers wid now ihw
            rw [isRunB] at this
            simp only [this] at hc
            exact Bool.false_ne_true hc
        | black =>
            rw [sysId] at hc
            have := pauseIgn_notRun_self (pauseIgn s.timers wid now) bid now
              (pauseIgn_wf _ _ _ ihw)
            rw [hc] at this
            simp at this
      · simp only [hst, if_false]
        exact ⟨ihw, ihrun⟩
  | resumeStep hr hph hres ih =>
      obtain ⟨ihw, ihrun⟩ := ih
      rename_i s now s'
      rw [resumeSys] at hres
      by_cases hst : s.status = GameStatus.paused
      · simp only [hst, if_true] at hres
        cases hstart : startTimer s.timers (sysId wid bid s.current) now with
        | error m => rw [hstart] at hres; cases hres
        | ok t =>
            rw [hstart] at hres
            cases hres
            refine ⟨startTimer_ok_wf ihw hstart, ?_⟩
            intro c hc
            show c = _
            by_cases hcc : c = s.current
            · exact hcc
            · exfalso
              have hid : sysId wid bid s.current ≠ sysId wid bid c :=
                fun he => hcc (sysId_inj hne he).symm
              rw [isRunB, startTimer_ok_find_other hstart _ hid] at hc
              exact hcc (ihrun c hc)
      · simp only [hst, if_false] at hres
        cases hres
        exact ⟨ihw, ihrun⟩

/-- Key under which `handleError` counts an invalid move:
`${move.from}${move.to}${move.promotion || ''}`. -/
def moveKey (m : MoveResponse) : String :=
  m.fromSq ++ m.toSq ++ m.promotion.getD ""

/-- Count stored in the per-player per-move ledger `invalidMoveAttempts`. -/
def ledgerCount (st : OrchState) (pid k : String) : Nat :=
  (assocFind ((assocFind st.invalidMoveAttempts pid).getD []) k).getD 0

/-- Feeds a sequence of rejected moves (each with the rules engine's error
message) through `handleError`, collecting the resolutions. -/
def runIllegalSeq (st : OrchState) (p : Player) :
    List (MoveResponse × String) → List ErrorResolution
  | [] => []
  | (m, msg) :: rest =>
      let h := handleError st p (.invalidMoveErr msg (some m))
      h.resolution :: runIllegalSeq h.state h.player rest

/-- Whether an error is the `TimeoutError` class. -/
def GameError.isTimeoutFlag : GameError → Bool
  | .timeoutErr _ _ => true
  | _ => false

theorem handleError_invalid_player (st : OrchState) (p : Player) (msg : String)
    (mv : Option MoveResponse) :
    (handleError st p (.invalidMoveErr msg mv)).player = p := by
  simp only [handleError]
  split <;> rfl

theorem handleError_invalid_resolution (st : OrchState) (p : Player)
    (msg : String) (m : MoveResponse) :
    (handleError st p (.invalidMoveErr msg (some m))).resolution =
      if ledgerCount st p.id (moveKey m) + 1 ≥ maxRetries then .forfeit else .retry := by
  simp only [handleError, ledgerCount, moveKey]
  split <;> rfl

theorem handleError_invalid_ledger (st : OrchState) (p : Player)
    (msg : String) (m : MoveResponse) :
    (handleError st p (.invalidMoveErr msg (some m))).state.invalidMoveAttempts =
      assocSet st.invalidMoveAttempts p.id
        (assocSet ((assocFind st.invalidMoveAttempts p.id).getD []) (moveKey m)
          (ledgerCount st p.id (moveKey m) + 1)) := by
  simp only [handleError, ledgerCount, moveKey]
  split <;> rfl

theorem handleError_invalid_feedback (st : OrchState) (p : Player)
    (msg : String) (m : MoveResponse) :
    assocFind (handleError st p (.invalidMoveErr msg (some m))).state.lastInvalidMoveReason p.id =
      some ("⚠️ Your move " ++ moveKey m ++ " was invalid. " ++ msg ++
        ". Attempt " ++ toString (ledgerCount st p.id (moveKey m) + 1) ++
        "/3 for this move. Please choose a different legal move.") := by
  simp only [handleError, ledgerCount, moveKey]
  split <;> simp [assocFind_set_same]

theorem ledgerCount_handleError (st : OrchState) (p : Player) (msg : String)
    (m : MoveResponse) (k : String) :
    ledgerCount (handleError st p (.invalidMoveErr msg (some m))).state p.id k =
      if k = moveKey m then ledgerCount st p.id (moveKey m) + 1
      else ledgerCount st p.id k := by
  rw [ledgerCount, handleError_invalid_ledger, assocFind_set_same]
  by_cases hk : k = moveKey m
  · subst hk
    simp [assocFind_set_same]
  · have hne : moveKey m ≠ k := fun he => hk he.symm
    rw [Option.getD_some, assocFind_set_other _ _ _ _ hne]
    simp [hk, ledgerCount]

/-- Concrete fixtures used by the closed witness theorems. -/
def mgrFix : GameTimerManager :=
  { timers :=
      [("white-player",
         { playerId := "white-player", remainingTimeMs := 60000, isRunning := false }),
       ("black-player",
         { playerId := "black-player", remainingTimeMs := 60000, isRunning := false })],
    timerConfig := { initialTimeMs := 60000, incrementMs := 3000, type := .fischer } }

/-- White player fixture. -/
def pWhite : Player := { id := "white-player", color := .white, retryCount := 0 }

/-- Black player fixture. -/
def pBlack : Player := { id := "black-player", color := .black, retryCount := 0 }

/-- Freshly started session fixture. -/
def stFresh : OrchState :=
  { gameStatus := .inProgress, isPaused := false, moveCount := 0,
    invalidMoveAttempts := [], lastInvalidMoveReason := [],
    timers := mgrFix, currentColor := .white,
    white := pWhite, black := pBlack, board := [] }

/-- Move fixture e2e4. -/
def mvA : MoveResponse := { fromSq := "e2", toSq := "e4" }

/-- Move fixture d2d4. -/
def mvB : MoveResponse := { fromSq := "d2", toSq := "d4" }

/-- C1: the illegal-move ledger counts rejected attempts per exact move
string (from+to+promotion): when an illegal-move failure brings the count for
that exact move to 3 or more, classification yields Forfeit; below 3 it
yields Retry and stores feedback naming the move and the attempt number
(`Attempt n/3`); and from a ledger holding no counts for them, pairwise
different illegal moves yield Retry every time, never Forfeit, no matter how
long the sequence. -/
theorem illegal_ledger_per_exact_move :
    (∀ (st : OrchState) (p : Player) (msg : String) (m : MoveResponse),
      (ledgerCount st p.id (moveKey m) + 1 ≥ 3 →
        (handleError st p (.invalidMoveErr msg (some m))).resolution = ErrorResolution.forfeit) ∧
      (ledgerCount st p.id (moveKey m) + 1 < 3 →
        (handleError st p (.invalidMoveErr msg (some m))).resolution = ErrorResolution.retry ∧
        assocFind (handleError st p (.invalidMoveErr msg (some m))).state.lastInvalidMoveReason p.id =
          some ("⚠️ Your move " ++ moveKey m ++ " was invalid. " ++ msg ++
            ". Attempt " ++ toString (ledgerCount st p.id (moveKey m) + 1) ++
            "/3 for this move. Please choose a different legal move."))) ∧
    (∀ (st : OrchState) (p : Player) (l : List (MoveResponse × String)),
      (∀ x ∈ l, ledgerCount st p.id (moveKey x.1) = 0) →
      List.Pairwise (fun a b => moveKey a.1 ≠ moveKey b.1) l →
      ∀ r ∈ runIllegalSeq st p l, r = ErrorResolution.retry) := by
  constructor
  · intro st p msg m
    constructor
    · intro h3
      rw [handleError_invalid_resolution, if_pos (by simpa [maxRetries] using h3)]
    · intro h3
      refine ⟨?_, handleError_invalid_feedback st p msg m⟩
      rw [handleError_invalid_resolution, if_neg (by simp [maxRetries]; omega)]
  · intro st p l
    induction l generalizing st with
    | nil => intro _ _ r hr; simp [runIllegalSeq] at hr
    | cons hd tl ih =>
        intro hcount hpw r hr
        obtain ⟨m, msg⟩ := hd
        simp only [runIllegalSeq, List.mem_cons] at hr
        rcases hr with rfl | hr
        · rw [handleError_invalid_resolution]
          have h0 : ledgerCount st p.id (moveKey m) = 0 :=
            hcount (m, msg) (List.mem_cons_self _ _)
          rw [h0, if_neg (by simp [maxRetries])]
        · rw [handleError_invalid_player] at hr
          have hpairs := List.pairwise_cons.mp hpw
          refine ih _ ?_ hpairs.2 r hr
          intro x hx
          rw [ledgerCount_handleError]
          have hxk : ¬ (moveKey x.1 = moveKey m) :=
            fun he => (hpairs.1 x hx) he.symm
          rw [if_neg hxk]
          exact hcount x (List.mem_cons_of_mem _ hx)

/-- Witness for C1: a first illegal `e2e4` yields Retry, and the sequence of
two different illegal moves e2e4, d2d4 from a fresh ledger yields only Retry. -/
theorem illegal_ledger_per_exact_move_witness :
    (handleError stFresh pWhite (.invalidMoveErr "Invalid move" (some mvA))).resolution =
      ErrorResolution.retry ∧
    ∀ r ∈ runIllegalSeq stFresh pWhite [(mvA, "Invalid move"), (mvB, "Invalid move")],
      r = ErrorResolution.retry := by
  constructor
  · exact ((illegal_ledger_per_exact_move.1 stFresh pWhite "Invalid move" mvA).2 (by decide)).1
  · exact illegal_ledger_per_exact_move.2 stFresh pWhite
      [(mvA, "Invalid move"), (mvB, "Invalid move")] (by decide) (by decide)

theorem handleError_other_resolution (st : OrchState) (p : Player) (msg : String) :
    (handleError st p (.otherErr msg)).resolution =
      if p.retryCount + 1 < maxRetries then ErrorResolution.retry
      else ErrorResolution.forfeit := by
  simp only [handleError]
  split <;> split <;> rfl

/-- C5: classification precedence is Timeout > IllegalMove > ParseOrFormat >
Other. A `TimeoutError` is always EndGame; an `InvalidMoveError` goes through
the per-move ledger and never touches the participant's generic retry
counter (even if its message mentions parse/JSON, which is only inspected
later); every other error increments the generic counter and, leaving the
ledger untouched, resolves Retry while the counter stays below 3 and Forfeit
otherwise. -/
theorem classification_precedence_generic_counter :
    ∀ (st : OrchState) (p : Player),
      (∀ (pid : String) (c : PlayerColor),
        (handleError st p (.timeoutErr pid c)).resolution = ErrorResolution.endGame ∧
        (handleError st p (.timeoutErr pid c)).state.gameStatus = GameStatus.timeout ∧
        (handleError st p (.timeoutErr pid c)).player.retryCount = p.retryCount) ∧
      (∀ (msg : String) (mv : Option MoveResponse),
        (handleError st p (.invalidMoveErr msg mv)).player.retryCount = p.retryCount ∧
        (handleError st p (.invalidMoveErr msg mv)).resolution ≠ ErrorResolution.endGame) ∧
      (∀ msg : String,
        (handleError st p (.otherErr msg)).player.retryCount = p.retryCount + 1 ∧
        (handleError st p (.otherErr msg)).state.invalidMoveAttempts = st.invalidMoveAttempts ∧
        (p.retryCount + 1 < maxRetries →
          (handleError st p (.otherErr msg)).resolution = ErrorResolution.retry) ∧
        (p.retryCount + 1 ≥ maxRetries →
          (handleError st p (.otherErr msg)).resolution = ErrorResolution.forfeit)) := by
  intro st p
  refine ⟨fun pid c => ⟨rfl, rfl, rfl⟩, fun msg mv => ⟨?_, ?_⟩, fun msg => ⟨?_, ?_, ?_, ?_⟩⟩
  · rw [handleError_invalid_player]
  · simp only [handleError]
    split <;> simp
  · simp only [handleError]
    split <;> split <;> rfl
  · simp only [handleError]
    split <;> split <;> rfl
  · intro hlt
    rw [handleError_other_resolution, if_pos hlt]
  · intro hge
    rw [handleError_other_resolution, if_neg (by simp only [maxRetries] at *; omega)]

/-- Witness for C5: timeout classifies EndGame; a first generic error
classifies Retry with counter 1. -/
theorem classification_precedence_generic_counter_witness :
    (handleError stFresh pWhite (.timeoutErr "white-player" .white)).resolution =
      ErrorResolution.endGame ∧
    (handleError stFresh pWhite (.otherErr "boom")).resolution = ErrorResolution.retry ∧
    (handleError stFresh pWhite (.otherErr "boom")).player.retryCount = 1 := by
  refine ⟨((classification_precedence_generic_counter stFresh pWhite).1 "white-player" .white).1,
    (((classification_precedence_generic_counter stFresh pWhite).2.2 "boom").2.2.1 (by decide)),
    ((classification_precedence_generic_counter stFresh pWhite).2.2 "boom").1⟩

/-- C6: `detectDrawReason` checks stalemate, then insufficient material,
then threefold repetition, then the fifty-move rule, in that fixed priority
order; a position satisfying several conditions reports the earliest. -/
theorem draw_reason_priority :
    ∀ f : PositionFlags,
      (f.isStalemateFlag = true → detectDrawReason f = some DrawReason.stalemate) ∧
      (f.isStalemateFlag = false → f.isInsufficientMaterialFlag = true →
        detectDrawReason f = some DrawReason.insufficientMaterial) ∧
      (f.isStalemateFlag = false → f.isInsufficientMaterialFlag = false →
        f.isThreefoldRepetitionFlag = true →
        detectDrawReason f = some DrawReason.threefoldRepetition) ∧
      (f.isStalemateFlag = false → f.isInsufficientMaterialFlag = false →
        f.isThreefoldRepetitionFlag = false → f.halfmoveClock ≥ 100 →
        detectDrawReason f = some DrawReason.fiftyMoveRule) ∧
      (f.isStalemateFlag = false → f.isInsufficientMaterialFlag = false →
        f.isThreefoldRepetitionFlag = false → f.halfmoveClock < 100 →
        detectDrawReason f = none) := by
  intro f
  refine ⟨?_, ?_, ?_, ?_, ?_⟩ <;> intros <;> simp_all [detectDrawReason]

/-- Witness for C6: a position that is simultaneously stalemate, material
draw, repetition and past the fifty-move threshold reports stalemate. -/
theorem draw_reason_priority_witness :
    detectDrawReason
      { isStalemateFlag := true, isInsufficientMaterialFlag := true,
        isThreefoldRepetitionFlag := true, halfmoveClock := 120 } =
      some DrawReason.stalemate :=
  (draw_reason_priority _).1 rfl

/-- C7: any failure inside `startGame` leaves the observed status
`NOT_STARTED` and propagates the error to the caller; absent a failure the
status becomes `IN_PROGRESS`. -/
theorem startGame_failure_reverts :
    ∀ (st : OrchState) (config : GameConfiguration) (fail : Option SetupFail),
      (∀ m : String, (startGame st config fail).1 = .error m →
        (startGame st config fail).2.gameStatus = GameStatus.notStarted) ∧
      (∀ m : String, fail = some (.initGame m) → (startGame st config fail).1 = .error m) ∧
      (∀ m : String, fail = some (.saveCfg m) → config.saveGame = true →
        (startGame st config fail).1 = .error m) ∧
      (fail = none → (startGame st config fail).1 = .ok () ∧
        (startGame st config fail).2.gameStatus = GameStatus.inProgress) := by
  intro st config fail
  refine ⟨?_, ?_, ?_, ?_⟩
  · intro m herr
    cases fail with
    | none => simp [startGame] at herr
    | some f =>
        cases f with
        | initGame m0 => simp [startGame]
        | saveCfg m0 =>
            simp only [startGame] at herr ⊢
            by_cases hs : config.saveGame <;> simp [hs] at herr ⊢
  · intro m hf; subst hf; rfl
  · intro m hf hs; subst hf; simp [startGame, hs]
  · intro hf; subst hf; exact ⟨rfl, rfl⟩

/-- Witness for C7: a failing configuration save surfaces its error and
leaves the game not started. -/
theorem startGame_failure_reverts_witness :
    (startGame stFresh
      { whitePlayer := { id := "white-player", initialTimeMs := 60000, incrementMs := 3000 },
        blackPlayer := { id := "black-player", initialTimeMs := 60000, incrementMs := 3000 },
        timerType := .fischer, saveGame := true }
      (some (.saveCfg "disk full"))).1 = .error "disk full" ∧
    (startGame stFresh
      { whitePlayer := { id := "white-player", initialTimeMs := 60000, incrementMs := 3000 },
        blackPlayer := { id := "black-player", initialTimeMs := 60000, incrementMs := 3000 },
        timerType := .fischer, saveGame := true }
      (some (.saveCfg "disk full"))).2.gameStatus = GameStatus.notStarted := by
  constructor
  · exact (startGame_failure_reverts stFresh _ _).2.2.1 "disk full" rfl rfl
  · exact (startGame_failure_reverts stFresh _ _).1 "disk full"
      ((startGame_failure_reverts stFresh _ _).2.2.1 "disk full" rfl rfl)

/-- Empty timer manager fixture (no id ever initialized). -/
def mgrEmpty : GameTimerManager :=
  { timers := [], timerConfig := { initialTimeMs := 60000, incrementMs := 3000, type := .fischer } }

/-- Counterexample for C8: `resetTimer` on a never-initialized id does not
fail with TimerNotFound — it silently creates a fresh stopped timer holding
the given time. -/
theorem resetTimer_creates_state_counterexample :
    findTimer (resetTimer mgrEmpty "p1" 5000 0) "p1" =
      some { playerId := "p1", remainingTimeMs := 5000, isRunning := false,
             lastStartTime := none } := by
  decide

/-- C8 (amended): `startTimer`, `pauseTimer`, `getRemainingTime`,
`addIncrement` and `isTimeExpired` fail with the TimerNotFound error on a
never-initialized id; `resetTimer` instead creates a fresh stopped timer on a
missing id, while on an existing timer it pauses first (if running) and
overwrites the remaining time with the given value, leaving the timer
stopped. -/
theorem timer_not_found_and_reset :
    ∀ (m : GameTimerManager) (id : String) (ms now : Int),
      (findTimer m id = none →
        startTimer m id now = .error ("Timer not found for player: " ++ id) ∧
        pauseTimer m id now = .error ("Timer not found for player: " ++ id) ∧
        getRemainingTime m id now = .error ("Timer not found for player: " ++ id) ∧
        addIncrement m id ms = .error ("Timer not found for player: " ++ id) ∧
        isTimeExpired m id now = .error ("Timer not found for player: " ++ id) ∧
        resetTimer m id ms now =
          setTimer m id { playerId := id, remainingTimeMs := ms,
                          isRunning := false, lastStartTime := none }) ∧
      (∀ t : PlayerTimer, findTimer m id = some t →
        findTimer (resetTimer m id ms now) id =
          some { t with remainingTimeMs := ms, isRunning := false }) := by
  intro m id ms now
  constructor
  · intro hnone
    refine ⟨?_, ?_, ?_, ?_, ?_, ?_⟩ <;>
      simp [startTimer, pauseTimer, getRemainingTime, addIncrement, isTimeExpired,
        resetTimer, hnone]
  · intro t hsome
    cases hru : t.isRunning with
    | false =>
        have hp : pauseTimer m id now = .ok (0, m) := by
          cases hls : t.lastStartTime <;> simp [pauseTimer, hsome, hru, hls]
        simp [resetTimer, hsome, hp, findTimer_set_same]
    | true =>
        cases hls : t.lastStartTime with
        | none =>
            have hp : pauseTimer m id now = .ok (0, m) := by
              simp [pauseTimer, hsome, hru, hls]
            simp [resetTimer, hsome, hp, findTimer_set_same, hls]
        | some s0 =>
            have hp : pauseTimer m id now =
                .ok (now - s0,
                  setTimer m id
                    { t with isRunning := false,
                             remainingTimeMs := max 0 t.remainingTimeMs }) := by
              simp [pauseTimer, hsome, hru, hls]
            simp [resetTimer, hsome, hp, findTimer_set_same, hls]

/-- Witness for C8: a never-initialized id makes `startTimer` fail with
TimerNotFound, and `resetTimer` on an existing stopped timer overwrites its
remaining time. -/
theorem timer_not_found_and_reset_witness :
    startTimer mgrEmpty "p1" 0 = .error "Timer not found for player: p1" ∧
    findTimer (resetTimer mgrFix "white-player" 1234 0) "white-player" =
      some { playerId := "white-player", remainingTimeMs := 1234,
             isRunning := false, lastStartTime := none } := by
  constructor
  · exact ((timer_not_found_and_reset mgrEmpty "p1" 5000 0).1 (by decide)).1
  · exact (timer_not_found_and_reset mgrFix "white-player" 1234 0).2
      { playerId := "white-player", remainingTimeMs := 60000,
        isRunning := false, lastStartTime := none } (by decide)

/-- C10: an error resolved as EndGame produces `createErrorResult`, and for
every non-timeout error that result is a draw with no winner and reason
`Game ended due to error: ` followed by the error's message. -/
theorem endgame_error_draw_result :
    (∀ (n : Nat) (e : GameError), e.isTimeoutFlag = false →
      createErrorResult n e =
        { winner := none, result := "draw",
          reason := "Game ended due to error: " ++ e.message,
          drawReason := none, finalPosition := none, moveCount := n }) ∧
    (∀ (st : OrchState) (cp : Player) (e : GameError) (inp : LoopInput),
      (handleError st cp e).resolution = ErrorResolution.endGame →
      gameLoopCatch st cp e inp =
        .finished
          (createErrorResult
            (setPlayer (handleError st cp e).state (handleError st cp e).player).moveCount e)
          (setPlayer (handleError st cp e).state (handleError st cp e).player)) := by
  constructor
  · intro n e hflag
    cases e with
    | timeoutErr pid c => simp [GameError.isTimeoutFlag] at hflag
    | invalidMoveErr msg mv => rfl
    | otherErr msg => rfl
  · intro st cp e inp hres
    rw [gameLoopCatch]
    rw [hres]

/-- Witness for C10: a loop-internal defect reported via EndGame becomes a
draw result carrying the error message. -/
theorem endgame_error_draw_result_witness :
    createErrorResult 7 (.otherErr "boom") =
      { winner := none, result := "draw",
        reason := "Game ended due to error: boom",
        drawReason := none, finalPosition := none, moveCount := 7 } :=
  endgame_error_draw_result.1 7 (.otherErr "boom") rfl

theorem retryGo_calls_le (o : Nat → Except String MoveResponse) :
    ∀ (fuel a : Nat), (retryGo o a fuel).calls ≤ fuel := by
  intro fuel
  induction fuel with
  | zero => intro a; simp [retryGo]
  | succ f ih =>
      intro a
      rw [retryGo]
      cases o a with
      | ok mv => show (1 : Nat) ≤ f + 1; omega
      | error msg =>
          cases hd : retryDelayFor msg with
          | none =>
              simp only [hd]
              show (1 : Nat) ≤ f + 1
              omega
          | some d =>
              simp only [hd]
              by_cases hac : a + 1 < 3
              · rw [if_pos hac]
                have := ih (a + 1)
                show (retryGo o (a + 1) f).calls + 1 ≤ f + 1
                omega
              · rw [if_neg hac]
                show (1 : Nat) ≤ f + 1
                omega

theorem catchPause_fields (st : OrchState) (id : String) (now : Int)
    (e0 : GameError) :
    (catchPause st id now e0).2.invalidMoveAttempts = st.invalidMoveAttempts ∧
    (catchPause st id now e0).2.board = st.board ∧
    (catchPause st id now e0).2.moveCount = st.moveCount ∧
    (catchPause st id now e0).2.white = st.white ∧
    (catchPause st id now e0).2.black = st.black ∧
    (catchPause st id now e0).2.currentColor = st.currentColor ∧
    (catchPause st id now e0).2.gameStatus = st.gameStatus ∧
    (catchPause st id now e0).2.isPaused = st.isPaused := by
  unfold catchPause
  split <;> exact ⟨rfl, rfl, rfl, rfl, rfl, rfl, rfl, rfl⟩

theorem processTurnAS_ok_fields {st1 : OrchState} {id : String}
    {inp : TurnInput} {sto : OrchState} {mv : MoveResponse} {u : Int}
    (h : processTurnAfterStart st1 id inp = .ok (sto, mv, u)) :
    sto.white = st1.white ∧ sto.black = st1.black ∧
    sto.currentColor = st1.currentColor ∧ sto.moveCount = st1.moveCount ∧
    sto.gameStatus = st1.gameStatus ∧ sto.isPaused = st1.isPaused ∧
    sto.invalidMoveAttempts = st1.invalidMoveAttempts ∧
    sto.lastInvalidMoveReason = st1.lastInvalidMoveReason ∧
    sto.board = st1.board ++ [mv] := by
  unfold processTurnAfterStart at h
  repeat' split at h
  all_goals cases h
  exact ⟨rfl, rfl, rfl, rfl, rfl, rfl, rfl, rfl, rfl⟩

theorem processTurnAS_error_fields {st1 : OrchState} {id : String}
    {inp : TurnInput} {e : GameError} {s : OrchState}
    (h : processTurnAfterStart st1 id inp = .error (e, s)) :
    s.invalidMoveAttempts = st1.invalidMoveAttempts ∧ s.board = st1.board ∧
    s.moveCount = st1.moveCount ∧ s.white = st1.white ∧ s.black = st1.black ∧
    s.currentColor = st1.currentColor ∧ s.gameStatus = st1.gameStatus ∧
    s.isPaused = st1.isPaused := by
  unfold processTurnAfterStart at h
  repeat' split at h
  all_goals try cases h
  all_goals
    injection h with h2
    have hs := congrArg Prod.snd h2
    dsimp only at hs
    rw [← hs]
    exact catchPause_fields _ _ _ _

theorem processTurn_ok_fields {st : OrchState} {id : String} {inp : TurnInput}
    {st1 : OrchState} {mv : MoveResponse} {u : Int}
    (h : processTurn st id inp = .ok (st1, mv, u)) :
    st1.white = st.white ∧ st1.black = st.black ∧
    st1.currentColor = st.currentColor ∧ st1.moveCount = st.moveCount ∧
    st1.gameStatus = st.gameStatus ∧ st1.isPaused = st.isPaused ∧
    st1.invalidMoveAttempts = st.invalidMoveAttempts ∧
    st1.board = st.board ++ [mv] := by
  unfold processTurn at h
  cases hs : startTimer st.timers id inp.startNow with
  | error m => rw [hs] at h; cases h
  | ok t1 =>
      rw [hs] at h
      have h2 : processTurnAfterStart
          { st with timers := tickN t1 id inp.thinkTicks,
                    lastInvalidMoveReason := assocErase st.lastInvalidMoveReason id }
          id inp = .ok (st1, mv, u) := h
      have hf := processTurnAS_ok_fields h2
      exact ⟨hf.1, hf.2.1, hf.2.2.1, hf.2.2.2.1, hf.2.2.2.2.1, hf.2.2.2.2.2.1,
        hf.2.2.2.2.2.2.1, hf.2.2.2.2.2.2.2.2⟩

theorem processTurn_error_fields {st : OrchState} {id : String} {inp : TurnInput}
    {e : GameError} {s : OrchState}
    (h : processTurn st id inp = .error (e, s)) :
    s.invalidMoveAttempts = st.invalidMoveAttempts ∧ s.board = st.board ∧
    s.moveCount = st.moveCount ∧ s.white = st.white ∧ s.black = st.black ∧
    s.currentColor = st.currentColor ∧ s.gameStatus = st.gameStatus ∧
    s.isPaused = st.isPaused := by
  unfold processTurn at h
  cases hs : startTimer st.timers id inp.startNow with
  | error m =>
      rw [hs] at h
      injection h with h2
      have hsnd := congrArg Prod.snd h2
      dsimp only at hsnd
      rw [← hsnd]
      exact ⟨rfl, rfl, rfl, rfl, rfl, rfl, rfl, rfl⟩
  | ok t1 =>
      rw [hs] at h
      have h2 : processTurnAfterStart
          { st with timers := tickN t1 id inp.thinkTicks,
                    lastInvalidMoveReason := assocErase st.lastInvalidMoveReason id }
          id inp = .error (e, s) := h
      have hf := processTurnAS_error_fields h2
      exact hf

/-- C3: the move-request retry sub-protocol makes at most 3 `requestMove`
attempts per turn; a rate-limit failure waits 15000 ms before retrying, a
malformed-response (`Failed to parse move`) or generic request failure
(`LLMApiError`) waits 3000 ms, an unparsable-response (`No JSON found`)
failure waits 2000 ms; after the 3rd failed attempt the last failure
propagates; and no run of `processTurn` (which contains this sub-protocol)
modifies the `invalidMoveAttempts` ledger. -/
theorem move_request_retry_protocol :
    (∀ o : Nat → Except String MoveResponse, (moveRequestRetry o).calls ≤ 3) ∧
    (∀ msg : String,
      (strContains msg "Rate limit" = true → retryDelayFor msg = some 15000) ∧
      (strContains msg "Rate limit" = false →
        (strContains msg "LLMApiError" = true ∨
         strContains msg "Failed to parse move" = true) →
        retryDelayFor msg = some 3000) ∧
      (strContains msg "Rate limit" = false → strContains msg "LLMApiError" = false →
        strContains msg "Failed to parse move" = false →
        strContains msg "No JSON found" = true → retryDelayFor msg = some 2000)) ∧
    (∀ (o : Nat → Except String MoveResponse) (m0 m1 : String) (mv : MoveResponse)
        (d0 d1 : Nat),
      o 0 = .error m0 → o 1 = .error m1 → o 2 = .ok mv →
      retryDelayFor m0 = some d0 → retryDelayFor m1 = some d1 →
      moveRequestRetry o = { result := .ok mv, waits := [d0, d1], calls := 3 }) ∧
    (∀ (o : Nat → Except String MoveResponse) (m0 m1 m2 : String) (d0 d1 : Nat),
      o 0 = .error m0 → o 1 = .error m1 → o 2 = .error m2 →
      retryDelayFor m0 = some d0 → retryDelayFor m1 = some d1 →
      (moveRequestRetry o).result = .error m2 ∧
      (moveRequestRetry o).waits = [d0, d1]) ∧
    (∀ (st : OrchState) (id : String) (inp : TurnInput),
      (∀ (st1 : OrchState) (mv : MoveResponse) (u : Int),
        processTurn st id inp = .ok (st1, mv, u) →
        st1.invalidMoveAttempts = st.invalidMoveAttempts) ∧
      (∀ (e : GameError) (s : OrchState),
        processTurn st id inp = .error (e, s) →
        s.invalidMoveAttempts = st.invalidMoveAttempts)) := by
  refine ⟨fun o => retryGo_calls_le o 3 0, ?_, ?_, ?_, ?_⟩
  · intro msg
    refine ⟨?_, ?_, ?_⟩
    · intro h; simp [retryDelayFor, h]
    · intro h0 h1
      rcases h1 with h1 | h1 <;> simp [retryDelayFor, h0, h1]
    · intro h0 h1 h2 h3; simp [retryDelayFor, h0, h1, h2, h3]
  · intro o m0 m1 mv d0 d1 h0 h1 h2 hd0 hd1
    rw [moveRequestRetry, retryGo, h0]
    dsimp only
    rw [hd0]
    dsimp only
    rw [if_pos (by norm_num : (0 : Nat) + 1 < 3)]
    rw [retryGo, h1]
    dsimp only
    rw [hd1]
    dsimp only
    rw [if_pos (by norm_num : (1 : Nat) + 1 < 3)]
    rw [retryGo, h2]
  · intro o m0 m1 m2 d0 d1 h0 h1 h2 hd0 hd1
    rw [moveRequestRetry, retryGo, h0]
    dsimp only
    rw [hd0]
    dsimp only
    rw [if_pos (by norm_num : (0 : Nat) + 1 < 3)]
    rw [retryGo, h1]
    dsimp only
    rw [hd1]
    dsimp only
    rw [if_pos (by norm_num : (1 : Nat) + 1 < 3)]
    rw [retryGo, h2]
    dsimp only
    cases hd2 : retryDelayFor m2 with
    | none =>
        dsimp only
        exact ⟨rfl, rfl⟩
    | some d2 =>
        dsimp only
        rw [if_neg (by norm_num : ¬ ((0 : Nat) + 1 + 1 + 1 < 3))]
        exact ⟨rfl, rfl⟩
  · intro st id inp
    constructor
    · intro st1 mv u h
      exact (processTurn_ok_fields h).2.2.2.2.2.2.1
    · intro e s h
      exact (processTurn_error_fields h).1

/-- Request-outcome fixture: rate-limited twice, then a move. -/
def oC3 : Nat → Except String MoveResponse := fun n =>
  if n < 2 then .error "Rate limit exceeded" else .ok mvA

/-- Witness for C3: two rate-limit failures then success give exactly two
15000 ms waits, three calls, and the move. -/
theorem move_request_retry_protocol_witness :
    moveRequestRetry oC3 = { result := .ok mvA, waits := [15000, 15000], calls := 3 } :=
  move_request_retry_protocol.2.2.1 oC3 "Rate limit exceeded" "Rate limit exceeded"
    mvA 15000 15000 rfl rfl rfl (by decide) (by decide)

theorem setPlayer_fields (st : OrchState) (p : Player) :
    (setPlayer st p).moveCount = st.moveCount ∧
    (setPlayer st p).board = st.board ∧
    (setPlayer st p).gameStatus = st.gameStatus ∧
    (setPlayer st p).currentColor = st.currentColor ∧
    (setPlayer st p).timers = st.timers ∧
    (setPlayer st p).invalidMoveAttempts = st.invalidMoveAttempts := by
  unfold setPlayer
  cases p.color <;> exact ⟨rfl, rfl, rfl, rfl, rfl, rfl⟩

/-- C2 (amended): when the acting participant's timer has already reached
zero by the time the accepted move has been applied, the loop raises a
Timeout failure after the move was applied to the board but before the
increment is added and the turn advances; the failure is classified EndGame
(never Retry) and the produced result has kind `timeout` with the opposing
colour as winner. -/
theorem timeout_after_move_applied :
    ∀ (st : OrchState) (inp : LoopInput) (st1 : OrchState) (mv : MoveResponse) (u : Int),
      st.isPaused = false →
      processTurn st (currentPlayerOf st).id inp.turn = .ok (st1, mv, u) →
      isTimeExpired st1.timers (currentPlayerOf st).id inp.turn.pauseNow = .ok true →
      gameLoopIter st inp =
        .finished
          (createErrorResult st.moveCount
            (.timeoutErr (currentPlayerOf st).id (currentPlayerOf st).color))
          (setPlayer { st1 with gameStatus := GameStatus.timeout } (currentPlayerOf st)) ∧
      (createErrorResult st.moveCount
        (.timeoutErr (currentPlayerOf st).id (currentPlayerOf st).color)).result = "timeout" ∧
      (createErrorResult st.moveCount
        (.timeoutErr (currentPlayerOf st).id (currentPlayerOf st).color)).winner =
        some (oppositeColor (currentPlayerOf st).color) ∧
      st1.board = st.board ++ [mv] := by
  intro st inp st1 mv u hpz hturn hexp
  have hTry : gameLoopTry st (currentPlayerOf st) inp =
      .error (.timeoutErr (currentPlayerOf st).id (currentPlayerOf st).color, st1) := by
    rw [gameLoopTry, hturn]
    dsimp only
    rw [hexp]
  refine ⟨?_, rfl, ?_, (processTurn_ok_fields hturn).2.2.2.2.2.2.2⟩
  · rw [gameLoopIter]
    rw [hpz]
    rw [if_neg Bool.false_ne_true]
    dsimp only
    rw [hTry]
    dsimp only
    rw [gameLoopCatch]
    dsimp only [handleError]
    have hmc : (setPlayer { st1 with gameStatus := GameStatus.timeout }
        (currentPlayerOf st)).moveCount = st.moveCount := by
      rw [(setPlayer_fields _ _).1]
      exact (processTurn_ok_fields hturn).2.2.2.1
    rw [hmc]
  · cases (currentPlayerOf st).color <;> rfl

/-- Timer manager fixture with 100 ms on each clock. -/
def mgrC2 : GameTimerManager :=
  { timers :=
      [("white-player",
         { playerId := "white-player", remainingTimeMs := 100, isRunning := false }),
       ("black-player",
         { playerId := "black-player", remainingTimeMs := 100, isRunning := false })],
    timerConfig := { initialTimeMs := 100, incrementMs := 0, type := .fischer } }

/-- Session fixture with 100 ms clocks. -/
def stC2 : OrchState := { stFresh with timers := mgrC2 }

/-- Loop input fixture: the move request succeeds with e2e4 while one
countdown tick drains the 100 ms clock to zero. -/
def inpC2 : LoopInput :=
  { turn := { requestOutcomes := fun _ => .ok mvA, thinkTicks := 1, startNow := 0,
              pauseNow := 50, makeMoveOk := true, makeMoveErr := "" },
    drawResponse := none, askResponse := none,
    postGameStatus := GameStatus.inProgress, postCurrentPlayer := .black,
    postFen := "fen",
    drawFlags := { isStalemateFlag := false, isInsufficientMaterialFlag := false,
                   isThreefoldRepetitionFlag := false, halfmoveClock := 0 } }

/-- State after `processTurn` on `stC2`/`inpC2`: clock drained and paused,
move applied to the board. -/
def stC2after : OrchState :=
  { stC2 with
      timers :=
        { mgrC2 with
            timers :=
              [("white-player",
                 { playerId := "white-player", remainingTimeMs := 0,
                   isRunning := false, lastStartTime := some 0 }),
               ("black-player",
                 { playerId := "black-player", remainingTimeMs := 100,
                   isRunning := false })] },
      board := [mvA] }

/-- Board of the state a loop iteration ends in. -/
def boardOfOutcome : LoopOutcome → List MoveResponse
  | .continueGame s => s.board
  | .finished _ s => s.board

/-- Result kind of a finishing loop iteration. -/
def resultKindOf : LoopOutcome → Option String
  | .finished r _ => some r.result
  | .continueGame _ => none

/-- Counterexample for C2 as stated: on a turn whose timer expired before the
move was accepted, the orchestrator does produce the Timeout result, but the
move HAS been applied to the board (the board grew from `[]` to `[mvA]`), so
the Timeout is not raised "instead of applying the move". -/
theorem timeout_move_still_applied_counterexample :
    resultKindOf (gameLoopIter stC2 inpC2) = some "timeout" ∧
    boardOfOutcome (gameLoopIter stC2 inpC2) = [mvA] ∧
    stC2.board = [] := ⟨rfl, rfl, rfl⟩

/-- Witness for C2 (amended): the concrete expired turn yields the Timeout
result with black as winner while the board carries the applied move. -/
theorem timeout_after_move_applied_witness :
    gameLoopIter stC2 inpC2 =
      .finished
        (createErrorResult stC2.moveCount
          (.timeoutErr (currentPlayerOf stC2).id (currentPlayerOf stC2).color))
        (setPlayer { stC2after with gameStatus := GameStatus.timeout }
          (currentPlayerOf stC2)) ∧
    stC2after.board = stC2.board ++ [mvA] :=
  ⟨(timeout_after_move_applied stC2 inpC2 stC2after mvA 0 rfl rfl rfl).1,
   (timeout_after_move_applied stC2 inpC2 stC2after mvA 0 rfl rfl rfl).2.2.2⟩

/-- Loop input fixture for C4: immediate success, no time consumed. -/
def inpC4 : LoopInput :=
  { turn := { requestOutcomes := fun _ => .ok mvA, thinkTicks := 0, startNow := 0,
              pauseNow := 0, makeMoveOk := true, makeMoveErr := "" },
    drawResponse := none, askResponse := none,
    postGameStatus := GameStatus.inProgress, postCurrentPlayer := .black,
    postFen := "fen",
    drawFlags := { isStalemateFlag := false, isInsufficientMaterialFlag := false,
                   isThreefoldRepetitionFlag := false, halfmoveClock := 0 } }

/-- Timer manager of the state a loop iteration ends in. -/
def timersOfOutcome : LoopOutcome → GameTimerManager
  | .continueGame s => s.timers
  | .finished _ s => s.timers

/-- C4 at the failing input: the configuration asks for a Fischer increment
of 3000 ms, yet after one successful zero-time move the mover's clock holds
initial + 5000 (the hardcoded constant of GameOrchestrator.ts:95), not
initial + incrementMs. -/
theorem orchestrator_increment_ignores_config :
    mgrFix.timerConfig.incrementMs = 3000 ∧
    mgrFix.timerConfig.type = TimerType.fischer ∧
    (findTimer (timersOfOutcome (gameLoopIter stFresh inpC4)) "white-player").map
      PlayerTimer.remainingTimeMs = some 65000 ∧
    (65000 : Int) = 60000 + 5000 ∧
    (65000 : Int) ≠ 60000 + 3000 := by
  refine ⟨rfl, rfl, rfl, rfl, by decide⟩

/-- C9: in every state reachable via the orchestrator's operations from a
freshly started game, the two participants' timers are never both running. -/
theorem at_most_one_timer_running :
    ∀ (wid bid : String) (mcfg cfgW cfgB : TimerConfiguration) (s : TimerSysState),
      wid ≠ bid → ReachTimer wid bid mcfg cfgW cfgB s →
      ¬ (isRunB s.timers wid = true ∧ isRunB s.timers bid = true) := by
  intro wid bid mcfg cfgW cfgB s hne hr hboth
  have hinv := timerInv_reach hne hr
  have h1 := hinv.2 PlayerColor.white (by simpa [sysId] using hboth.1)
  have h2 := hinv.2 PlayerColor.black (by simpa [sysId] using hboth.2)
  exact PlayerColor.noConfusion (h1.trans h2.symm)

/-- Witness for C9: the invariant applied to the freshly started state. -/
theorem at_most_one_timer_running_witness :
    ¬ (isRunB (initTimerSys "white-player" "black-player" mgrFix.timerConfig
         mgrFix.timerConfig mgrFix.timerConfig).timers "white-player" = true ∧
       isRunB (initTimerSys "white-player" "black-player" mgrFix.timerConfig
         mgrFix.timerConfig mgrFix.timerConfig).timers "black-player" = true) :=
  at_most_one_timer_running "white-player" "black-player" mgrFix.timerConfig
    mgrFix.timerConfig mgrFix.timerConfig _ (by decide) ReachTimer.start
